import Mathlib

/-!
Verification of the accessibility-scoring core of this repository.

The Python source is shallowly embedded: each metric calculator, the score
aggregator, the text-clarity classifier and the systematic form probe are
translated to executable Lean definitions over explicit record types.  Python
floats are modelled as exact rationals (`ℚ`); dictionaries with known key sets
become structures; values read from page content (DOM facts, rule-engine node
lists, extracted instruction strings) become explicit input lists, mirroring
the boundary to the external Page Inspector / Rule Engine collaborators.
-/

namespace AccessEval

/-- Python `max(0, min(1, x))` used by `ScoreCalculator`. -/
def clamp01 (x : ℚ) : ℚ := max 0 (min 1 x)

/-- The metrics dictionary consumed by `ScoreCalculator.calculate_subscores`.
All nine keys produced by the four metric-calculator families; `dict.get`
with default 0 is total here because every key is present. -/
structure Metrics where
  alt_text : ℚ
  contrast : ℚ
  media_accessibility : ℚ
  keyboard_navigation : ℚ
  structured_navigation : ℚ
  instruction_clarity : ℚ
  input_assistance : ℚ
  error_support : ℚ
  localization : ℚ
deriving DecidableEq

/-- The subscores dictionary returned by `ScoreCalculator.calculate_subscores`. -/
structure Subscores where
  perceptibility : ℚ
  operability : ℚ
  understandability : ℚ
  localization : ℚ
deriving DecidableEq

/-- Embedding of `ScoreCalculator.calculate_subscores`
(`core/utils/calculator.py`). -/
def calculate_subscores (m : Metrics) : Subscores :=
  { perceptibility :=
      clamp01 ((m.alt_text * 0.5 + m.contrast * 0.5 + m.media_accessibility * 0.4) / 1.4)
    operability :=
      clamp01 (m.keyboard_navigation * 0.6 + m.structured_navigation * 0.4)
    understandability :=
      clamp01 (m.instruction_clarity * 0.4 + m.input_assistance * 0.3 +
        m.error_support * 0.3)
    localization := clamp01 m.localization }

/-- Embedding of `ScoreCalculator.calculate_final_score`
(`core/utils/calculator.py`): `0.6 * main_score + 0.4 * localization`,
clamped into `[0, 1]`. -/
def calculate_final_score (s : Subscores) : ℚ :=
  clamp01 (0.6 * (0.3 * s.perceptibility + 0.3 * s.operability +
    0.4 * s.understandability) + 0.4 * s.localization)

/-- Embedding of `ScoreCalculator.get_quality_level`
(`core/utils/calculator.py`): the source returns Ukrainian level names;
the five strings are kept verbatim. -/
def get_quality_level (score : ℚ) : String :=
  if score ≥ 0.618 then "Відмінно"
  else if score ≥ 0.382 then "Добре"
  else if score ≥ 0.236 then "Задовільно"
  else if score ≥ 0.146 then "Погано"
  else "Дуже погано"

/-- The language weight table from `LocalizationMetrics.__init__`
(`core/metrics/localization.py`). -/
structure LangWeights where
  uk : ℚ
  en : ℚ
  de : ℚ
  fr : ℚ
  other : ℚ

/-- The weight values assigned in `LocalizationMetrics.__init__`. -/
def localization_weights : LangWeights :=
  { uk := 0.6, en := 0.2, de := 0.08, fr := 0.08, other := 0.04 }

/-- The unclamped sum accumulated in
`LocalizationMetrics.calculate_localization_metric` over the detected
language set (`available_languages` is the set returned by
`_detect_available_languages`, abstracted here as an input list). -/
def localization_raw_score (langs : List String) : ℚ :=
  (if "uk" ∈ langs then localization_weights.uk else 0) +
  (if "en" ∈ langs then localization_weights.en else 0) +
  (if "de" ∈ langs ∨ "fr" ∈ langs then localization_weights.de else 0) +
  (if langs.any (fun l => l ∉ (["uk", "en", "de", "fr"] : List String))
    then localization_weights.other else 0)

/-- Embedding of `LocalizationMetrics.calculate_localization_metric`:
the accumulated tier sum, clamped by `min(score, 1.0)`. -/
def calculate_localization_metric (langs : List String) : ℚ :=
  min (localization_raw_score langs) 1

/-! ## Rule-engine (axe-core) results

`page_data['axe_results']` holds `passes` and `violations`, each a list of
per-rule records whose `nodes` lists the affected elements.  Only the node
lists and the rule ids enter the metric formulas. -/

/-- One node of an axe-core rule result; the metric calculators use only the
count of nodes, the `html` snippet is carried for faithfulness to the record
shape. -/
structure AxeNode where
  html : String

/-- One rule record inside `axe_results['passes']` or
`axe_results['violations']`. -/
structure RuleResult where
  id : String
  nodes : List AxeNode

/-- The `axe_results` dictionary. -/
structure AxeResults where
  passes : List RuleResult
  violations : List RuleResult

/-- Embedding of `_get_axe_rule_results` (first record whose `id` matches;
the source returns `{}` — falsy — when none matches, modelled as `none`). -/
def get_axe_rule_results (results : List RuleResult) (rule_id : String) :
    Option RuleResult :=
  results.find? (fun r => r.id = rule_id)

/-- Node count contributed by one rule id on the `passes` side. -/
def rulePassCount (ax : AxeResults) (rule_id : String) : ℕ :=
  match get_axe_rule_results ax.passes rule_id with
  | some r => r.nodes.length
  | none => 0

/-- Node count contributed by one rule id on the `violations` side. -/
def ruleViolationCount (ax : AxeResults) (rule_id : String) : ℕ :=
  match get_axe_rule_results ax.violations rule_id with
  | some r => r.nodes.length
  | none => 0

/-- Total (passes + violations) node count accumulated over a rule-id list,
as in the loops of the axe-based metrics. -/
def axeTotalCount (ax : AxeResults) (rules : List String) : ℕ :=
  (rules.map (fun rid => rulePassCount ax rid + ruleViolationCount ax rid)).sum

/-- Correct (passes only) node count accumulated over a rule-id list. -/
def axeCorrectCount (ax : AxeResults) (rules : List String) : ℕ :=
  (rules.map (fun rid => rulePassCount ax rid)).sum

/-! ## Page facts

The remaining inputs of the metric calculators are facts the source extracts
from the page HTML with BeautifulSoup or receives from the scraper
(`page_data`).  The extraction itself is the Page-Inspector boundary; the
extracted facts are the inputs of the embedded functions. -/

/-- An `<img>` tag as seen by `_fallback_alt_text_analysis`: only the
presence of an `alt` attribute (possibly empty) matters. -/
structure Img where
  alt : Option String
deriving DecidableEq

/-- A `<track>` child of a native `<video>` element. -/
structure Track where
  kind : String
deriving DecidableEq

/-- One entry of `page_data['media_elements']`
(`calculate_media_accessibility_metric`).  `has_captions` is the scraper's
caption verdict for embedded videos; `mtype` is `elem['type']`. -/
structure MediaElement where
  mtype : String
  tracks : List Track
  has_captions : Bool
deriving DecidableEq

/-- Accessibility verdict for one video-like element, following the
per-element branch of `calculate_media_accessibility_metric`: native videos
need a `subtitles`/`captions` track, else a `descriptions` track; embedded
videos use the scraper's `has_captions` flag (the `caption_check_method`
only selects the printed reason). -/
def videoAccessible (v : MediaElement) : Bool :=
  if v.mtype = "video" then
    v.tracks.any (fun t => t.kind = "subtitles" ∨ t.kind = "captions") ||
      v.tracks.any (fun t => t.kind = "descriptions")
  else if v.mtype = "embedded_video" then
    v.has_captions
  else false

/-- One entry of `page_data['focus_test_results']`
(`calculate_keyboard_navigation_metric`). -/
structure FocusResult where
  focusable : Bool
deriving DecidableEq

/-- One entry of `page_data['interactive_elements]'` used by the keyboard
fallback; attribute values are kept as the scraper delivers them. -/
structure InteractiveElement where
  tag : String
  tabindex : Option String
  role : Option String
deriving DecidableEq

/-- Embedding of `OperabilityMetrics._is_keyboard_accessible`. -/
def is_keyboard_accessible (e : InteractiveElement) : Bool :=
  if e.tag ∈ (["button", "a", "input", "select", "textarea"] : List String) then
    ¬ (e.tabindex = some "-1")
  else
    match e.role with
    | some r =>
      if r ∈ (["button", "link", "menuitem", "tab"] : List String) then
        e.tabindex.isSome && ¬ (e.tabindex = some "-1")
      else e.tabindex.isSome && ¬ (e.tabindex = some "-1")
    | none => e.tabindex.isSome && ¬ (e.tabindex = some "-1")

/-- A text-like `input`/`textarea` field as scanned by
`calculate_input_assistance_metric`.  `itype` is `element.get('type','text')`
lower-cased; each assistance flag records whether the corresponding
attribute is present with a truthy (non-empty) value. -/
structure AssistField where
  isTextarea : Bool
  itype : String
  autocomplete : Bool
  placeholder : Bool
  ariaDescribedby : Bool
  ariaLabel : Bool
  title : Bool

/-- The `text_input_types` list of `calculate_input_assistance_metric`. -/
def text_input_types : List String :=
  ["text", "email", "password", "tel", "url", "search",
   "number", "date", "datetime-local", "month", "week", "time"]

/-- The `has_assistance` disjunction of `calculate_input_assistance_metric`. -/
def hasAssistance (f : AssistField) : Bool :=
  f.autocomplete || f.placeholder || f.ariaDescribedby || f.ariaLabel || f.title

/-! ## String helpers mirroring Python primitives

Python string operations used by the classifier and the error-support
analysis.  Lean's `Char.toLower` folds only ASCII letters while Python's
`str.lower` also folds Cyrillic; every keyword list in the source is already
lower-case, so the comparison logic is unaffected for the lower-case inputs
the theorems and counterexamples use. -/

/-- Python `str.strip()` (whitespace at both ends). -/
def pyStrip (s : String) : String :=
  String.mk (((s.data.dropWhile Char.isWhitespace).reverse.dropWhile
    Char.isWhitespace).reverse)

/-- Python `str.lower()` (ASCII case folding, see the section note). -/
def pyLower (s : String) : String := String.mk (s.data.map Char.toLower)

/-- `needle in haystack` over character lists: some suffix of the haystack
starts with the needle. -/
def containsSubAux (pat : List Char) : List Char → Bool
  | [] => pat.isEmpty
  | c :: cs => pat.isPrefixOf (c :: cs) || containsSubAux pat cs

/-- Python `needle in haystack` substring test. -/
def containsSub (haystack needle : String) : Bool :=
  containsSubAux needle.data haystack.data

/-- Accumulator pass splitting a character list into maximal
non-whitespace runs. -/
def wordsAux : List Char → List Char → List String
  | [], acc => if acc.isEmpty then [] else [String.mk acc.reverse]
  | c :: cs, acc =>
    if c.isWhitespace then
      if acc.isEmpty then wordsAux cs []
      else String.mk acc.reverse :: wordsAux cs []
    else wordsAux cs (c :: acc)

/-- Python `str.split()` with no separator: maximal non-whitespace runs. -/
def pyWords (s : String) : List String := wordsAux s.data []

/-- Python `str.split(sep)` for a one-character separator (empty parts
kept). -/
def splitOnChar (sep : Char) : List Char → List (List Char)
  | [] => [[]]
  | c :: cs =>
    if c = sep then [] :: splitOnChar sep cs
    else
      match splitOnChar sep cs with
      | [] => [[c]]
      | w :: ws => (c :: w) :: ws

/-- Number of maximal runs of characters satisfying `p`. -/
def countRuns (p : Char → Bool) : List Char → ℕ
  | [] => 0
  | c :: cs =>
    match cs with
    | [] => if p c then 1 else 0
    | c2 :: _ => (if p c && ¬ p c2 then 1 else 0) + countRuns p cs

/-- Length of Python `re.split(r'[.!?]+', s)`: one part per maximal
delimiter run plus one (empty parts at the ends included, interior runs
collapsed — exactly `re.split` with a `+`-quantified character class). -/
def sentenceSplitCount (s : String) : ℕ :=
  countRuns (fun c => c = '.' || c = '!' || c = '?') s.toList + 1

/-! ## Text Clarity Classifier (`UnderstandabilityMetrics`)

`textstat` is an external library; its three readability indices are
abstracted as an oracle returning `some (flesch, grade, ari)` or `none` when
the computation raises (the `except` branch of `_assess_long_instruction`). -/

/-- Oracle for the `textstat` readability computations. -/
structure TextstatOracle where
  eval : String → Option (ℚ × ℚ × ℚ)

/-- Embedding of `_basic_clarity_assessment` (the fallback used when
`textstat` raises). -/
def basic_clarity_assessment (text : String) : Bool :=
  let word_count := (pyWords text).length
  let sentence_count := sentenceSplitCount (pyStrip text)
  5 ≤ text.length && text.length ≤ 150 && word_count ≤ 20 && sentence_count ≤ 2

/-- The `complex_terms` list of `_is_simple_short_text`. -/
def complex_terms : List String :=
  ["дескриптивний", "ідентифікація", "узагальнений", "субʼєкт", "параметр",
   "конфігурація", "аутентифікація", "авторизація", "валідація", "верифікація",
   "інтеграція", "імплементація", "оптимізація", "синхронізація", "модифікація"]

/-- Embedding of `_is_simple_short_text` (1–3 word tier). -/
def is_simple_short_text (text : String) : Bool :=
  let text_lower := pyLower text
  if complex_terms.any (fun t => containsSub text_lower t) then false
  else if (pyWords text).any (fun w => w.length > 12) then false
  else true

/-- Embedding of `_assess_short_instruction` (4–8 word tier). -/
def assess_short_instruction (text : String) : Bool :=
  if ¬ is_simple_short_text text then false
  else
    let words := pyWords text
    let avg_word_length : ℚ := ((words.map String.length).sum : ℚ) / words.length
    if avg_word_length > 8 then false
    else if (words.filter (fun w => w.length > 8)).length > 1 then false
    else true

/-- Embedding of `_assess_long_instruction` (9+ word tier): the three
readability criteria, falling back to `_basic_clarity_assessment` when the
`textstat` computation raises. -/
def assess_long_instruction (ts : TextstatOracle) (text : String) : Bool :=
  match ts.eval text with
  | some (flesch_score, grade_level, ari_score) =>
    flesch_score ≥ 30 || grade_level ≤ 10 || ari_score ≤ 10
  | none => basic_clarity_assessment text

/-- Embedding of `_assess_instruction_clarity`. -/
def assess_instruction_clarity (ts : TextstatOracle) (text : String) : Bool :=
  if (pyStrip text).length < 2 then false
  else if text.length > 200 then false
  else
    let word_count := (pyWords text).length
    let sentence_count := sentenceSplitCount (pyStrip text)
    if ¬ (word_count ≤ 25 && sentence_count ≤ 3) then false
    else if word_count ≤ 3 then is_simple_short_text text
    else if word_count ≤ 8 then assess_short_instruction text
    else assess_long_instruction ts text

/-- Character class `[a-zA-Z0-9._%+-]` of the email regex. -/
def emailLocalChar (c : Char) : Bool :=
  c.isAlphanum || c = '.' || c = '_' || c = '%' || c = '+' || c = '-'

/-- Character class `[a-zA-Z0-9.-]` of the email regex. -/
def emailDomainChar (c : Char) : Bool :=
  c.isAlphanum || c = '.' || c = '-'

/-- Match of `[a-zA-Z0-9.-]+\.[a-zA-Z]{2,}` against a whole string: the
`[a-zA-Z]{2,}$` tail can only start after the last dot, so the match
condition is: all characters in the class, at least one dot, an all-alpha
last segment of length ≥ 2, and a non-empty prefix before that dot. -/
def emailDomainMatch (d : List Char) : Bool :=
  let parts := splitOnChar '.' d
  d.all emailDomainChar && 2 ≤ parts.length &&
    (match parts.getLast? with
     | some lastPart =>
       lastPart.all Char.isAlpha && 2 ≤ lastPart.length &&
         lastPart.length + 2 ≤ d.length
     | none => false)

/-- Full match of the source's `email_pattern` regex
`^[a-zA-Z0-9._%+-]+@[a-zA-Z0-9.-]+\.[a-zA-Z]{2,}$` (`re.match` with both
anchors): both character classes exclude `@`, so a match forces exactly one
`@` splitting local part and domain. -/
def emailPatternMatch (s : String) : Bool :=
  match splitOnChar '@' s.data with
  | [lp, domain] => ¬ lp.isEmpty && lp.all emailLocalChar && emailDomainMatch domain
  | _ => false

/-- The `email_examples` list of `_assess_email_instruction`. -/
def email_examples : List String :=
  ["example.com", "domain.com", "gmail.com", "email.com",
   "yourname", "username", "user", "name", "john", "jane"]

/-- Embedding of `_assess_email_instruction` (special clarity logic applied
when the instruction's field context is an email field). -/
def assess_email_instruction (ts : TextstatOracle) (text : String) : Bool :=
  if (pyStrip text).length < 2 then false
  else if text.length > 200 then false
  else if emailPatternMatch (pyStrip text) then true
  else if containsSub text "@" then
    if email_examples.any (fun e => containsSub (pyLower text) e) then true
    else assess_instruction_clarity ts text
  else assess_instruction_clarity ts text

/-- Embedding of `_assess_instruction_clarity_with_context`: email-typed
fields get `_assess_email_instruction`, all others the standard logic. -/
def assess_instruction_clarity_with_context (ts : TextstatOracle)
    (text : String) (field_type : String) : Bool :=
  if field_type = "email" then assess_email_instruction ts text
  else assess_instruction_clarity ts text

/-- One extracted instruction (label / placeholder / aria-label text with
its field-type context, as built by `_extract_instructions_with_context`;
`field_type` defaults to `"unknown"` there). -/
structure Instruction where
  text : String
  field_type : String
deriving DecidableEq

/-! ## Static error-support analysis (`UnderstandabilityMetrics`, Phases 1–3) -/

/-- A form control (`input`/`textarea`/`select`) as the static error-support
analysis reads it.  Boolean fields record the truthiness of the
corresponding attribute lookups; `describedby_resolves` is
`_check_aria_describedby_exists` (the attribute is present and at least one
referenced id exists); `describedby_messages` are the non-empty texts of the
resolved elements collected by `_find_error_messages_for_field`;
`referenced_in_scripts` is the field-id/name-in-script half of
`_detect_javascript_validation`. -/
structure ErrField where
  isTextarea : Bool
  itype : String
  required : Bool
  pattern : Bool
  aria_invalid : Bool
  describedby_resolves : Bool
  describedby_messages : List String
  referenced_in_scripts : Bool
deriving DecidableEq

/-- Page-wide facts consumed by the static error-support phases:
`role="alert"` elements (`_check_alert_elements_exist`), live regions
(`_check_live_regions_exist`) and validation keywords in page scripts
(first half of `_detect_javascript_validation`). -/
structure ErrPageFacts where
  has_alert_elements : Bool
  has_live_regions : Bool
  scripts_have_validation_keywords : Bool

/-- The `validation_types` list of `_field_needs_validation`. -/
def validation_types : List String :=
  ["text", "email", "password", "tel", "url", "number", "date", "datetime-local"]

/-- Embedding of `_field_needs_validation`. -/
def field_needs_validation (f : ErrField) : Bool :=
  if f.isTextarea then true
  else if ¬ f.isTextarea && f.itype ∈ validation_types then true
  else f.required || f.pattern

/-- The `constructive_words` list of `_assess_error_message_quality`. -/
def constructive_words : List String :=
  ["введіть", "виберіть", "перевірте", "має містити", "формат",
   "please", "enter", "select", "check"]

/-- The `specific_words` list of `_assess_error_message_quality`. -/
def specific_words : List String :=
  ["email", "пароль", "телефон", "дата", "символів", "цифр",
   "password", "phone", "date"]

/-- Embedding of `_assess_error_message_quality` (0.3 length + 0.4
constructive + 0.3 specific, capped at 1.0; empty/short messages score 0 —
`not message_text` is subsumed by the stripped-length check). -/
def assess_error_message_quality (message_text : String) : ℚ :=
  if (pyStrip message_text).length < 3 then 0
  else
    let lenScore : ℚ :=
      if 10 ≤ message_text.length ∧ message_text.length ≤ 100 then 0.3
      else if 5 ≤ message_text.length ∧ message_text.length ≤ 150 then 0.15
      else 0
    let constructiveScore : ℚ :=
      if constructive_words.any (fun w => containsSub (pyLower message_text) w)
        then 0.4 else 0
    let specificScore : ℚ :=
      if specific_words.any (fun w => containsSub (pyLower message_text) w)
        then 0.3 else 0
    min (lenScore + constructiveScore + specificScore) 1

/-- Embedding of `_phase1_basic_error_support` (≤ 0.4). -/
def phase1_basic_error_support (pg : ErrPageFacts) (f : ErrField) : ℚ :=
  (if f.required || f.pattern then 0.1 else 0) +
  (if f.aria_invalid then 0.1 else 0) +
  (if f.describedby_resolves then 0.1 else 0) +
  (if pg.has_alert_elements then 0.1 else 0)

/-- Embedding of `_phase2_message_quality` (average message quality scaled
into the 0.3 budget; no messages ⇒ 0). -/
def phase2_message_quality (f : ErrField) : ℚ :=
  if f.describedby_messages = [] then 0
  else
    let total := (f.describedby_messages.map assess_error_message_quality).sum
    (total / f.describedby_messages.length) * 0.3

/-- Embedding of `_phase3_dynamic_validation` (≤ 0.3). -/
def phase3_dynamic_validation (pg : ErrPageFacts) (f : ErrField) : ℚ :=
  (if pg.has_live_regions then 0.15 else 0) +
  (if pg.scripts_have_validation_keywords || f.referenced_in_scripts
    then 0.15 else 0)

/-- Embedding of `_analyze_field_error_support` (sum of the three phases,
capped at 1.0). -/
def analyze_field_error_support (pg : ErrPageFacts) (f : ErrField) : ℚ :=
  min (phase1_basic_error_support pg f + phase2_message_quality f +
    phase3_dynamic_validation pg f) 1

/-- A form is its field list for the static analysis
(`form.find_all(['input', 'textarea', 'select'])`). -/
abbrev ErrForm : Type := List ErrField

/-- Embedding of `_analyze_form_error_support_quality`: mean field quality
over the fields needing validation; a form with no fields, or none needing
validation, scores 1.0. -/
def analyze_form_error_support_quality (pg : ErrPageFacts) (form : ErrForm) : ℚ :=
  if form = ([] : List ErrField) then 1
  else
    let vfields := form.filter field_needs_validation
    if vfields = ([] : List ErrField) then 1
    else ((vfields.map (analyze_field_error_support pg)).sum) / vfields.length

/-- One entry of `page_data['form_error_test_results]'`: either a record
carrying an `error` key (skipped by the dynamic average) or a successful
systematic probe result with its `quality_score`. -/
structure DynFormResult where
  hasErrorKey : Bool
  quality_score : ℚ

/-- The `dynamic_average` computation of
`calculate_error_support_metric_enhanced`: mean `quality_score` over
results without an `error` key; zero when there are none (covering both the
empty list and the all-errors case). -/
def dynamic_average (results : List DynFormResult) : ℚ :=
  let ok := results.filter (fun r => ¬ r.hasErrorKey)
  if ok.length > 0 then (ok.map (fun r => r.quality_score)).sum / ok.length
  else 0

/-- Inputs of `calculate_error_support_metric_enhanced`: whether
`html_content` is non-empty, the `<form>` elements found (each its field
list), the individual fields found when no `<form>` exists, the page-wide
static facts, and the dynamic form-probe results. -/
structure ErrSupportInput where
  html_available : Bool
  forms : List ErrForm
  individual_fields : List ErrField
  pageFacts : ErrPageFacts
  form_error_test_results : List DynFormResult

/-- The effective form list of `calculate_error_support_metric_enhanced`:
the `<form>` elements, or the whole page as one virtual form when only
loose fields exist, or nothing. -/
def effectiveForms (inp : ErrSupportInput) : List ErrForm :=
  if inp.forms ≠ ([] : List ErrForm) then inp.forms
  else if inp.individual_fields ≠ ([] : List ErrField) then [inp.individual_fields]
  else []

/-- The `static_average` of `calculate_error_support_metric_enhanced`
(mean static form quality; meaningful when `effectiveForms` is non-empty). -/
def static_average (inp : ErrSupportInput) : ℚ :=
  ((effectiveForms inp).map (analyze_form_error_support_quality inp.pageFacts)).sum /
    (effectiveForms inp).length

/-- Embedding of `calculate_error_support_metric_enhanced`: 1.0 without
HTML or without any field; otherwise the hybrid
`0.4 * static + 0.6 * dynamic` — but only when `dynamic_average > 0`; with
a zero dynamic average (no results, all failed, or all zero-quality) the
static average is returned alone. -/
def calculate_error_support_metric_enhanced (inp : ErrSupportInput) : ℚ :=
  if ¬ inp.html_available then 1
  else if effectiveForms inp = ([] : List ErrForm) then 1
  else
    let dyn := dynamic_average inp.form_error_test_results
    if dyn > 0 then static_average inp * 0.4 + dyn * 0.6
    else static_average inp

/-! ## The metric calculators over the page facts -/

/-- The per-evaluation fact bundle (`page_data`) as the metric calculators
consume it.  `html_available` is the truthiness of
`page_data['html_content']`; `fallback_text_elements_count` is the number of
non-empty text elements the contrast fallback scan collects (its 50-element
cap does not change emptiness). -/
structure PageData where
  html_available : Bool
  axe_results : AxeResults
  images : List Img
  fallback_text_elements_count : ℕ
  media_elements : List MediaElement
  focus_test_results : List FocusResult
  interactive_elements : List InteractiveElement
  instructions : List Instruction
  assist_fields : List AssistField
  errorSupport : ErrSupportInput
  available_languages : List String

/-- The `alt_related_rules` list of `calculate_alt_text_metric`. -/
def alt_related_rules : List String := ["image-alt", "input-image-alt", "area-alt"]

/-- The `contrast_rules` list of `calculate_contrast_metric`. -/
def contrast_rules : List String := ["color-contrast", "color-contrast-enhanced"]

/-- The `heading_rules` list of `calculate_structured_navigation_metric`. -/
def heading_rules : List String :=
  ["heading-order", "page-has-heading-one", "empty-heading"]

/-- Embedding of `PerceptibilityMetrics._fallback_alt_text_analysis`:
no HTML ⇒ 1.0; no `<img>` tags ⇒ 1.0; else the share of images carrying an
`alt` attribute (empty `alt` counts as correct, absence does not). -/
def fallback_alt_text_analysis (p : PageData) : ℚ :=
  if ¬ p.html_available then 1
  else if p.images.length = 0 then 1
  else ((p.images.countP (fun i => i.alt.isSome) : ℚ)) / p.images.length

/-- Embedding of `PerceptibilityMetrics.calculate_alt_text_metric`:
pass ratio over the alt rules, falling back to the HTML scan when axe-core
reports no images. -/
def calculate_alt_text_metric (p : PageData) : ℚ :=
  let total_images := axeTotalCount p.axe_results alt_related_rules
  let correct_images := axeCorrectCount p.axe_results alt_related_rules
  if total_images = 0 then fallback_alt_text_analysis p
  else (correct_images : ℚ) / total_images

/-- Embedding of `PerceptibilityMetrics._fallback_contrast_analysis`:
no HTML ⇒ 0.8 (assumed average contrast); no text elements ⇒ 1.0; text
elements present ⇒ 0.8 (assumed 80 % acceptable, computed styles being
unavailable). -/
def fallback_contrast_analysis (p : PageData) : ℚ :=
  if ¬ p.html_available then 0.8
  else if p.fallback_text_elements_count = 0 then 1
  else 0.8

/-- Embedding of `PerceptibilityMetrics.calculate_contrast_metric`:
pass ratio over the contrast rules, falling back when axe-core reports no
text elements. -/
def calculate_contrast_metric (p : PageData) : ℚ :=
  let total_elements := axeTotalCount p.axe_results contrast_rules
  let correct_elements := axeCorrectCount p.axe_results contrast_rules
  if total_elements = 0 then fallback_contrast_analysis p
  else (correct_elements : ℚ) / total_elements

/-- Embedding of `PerceptibilityMetrics.calculate_media_accessibility_metric`:
accessible share of the video-like media elements; none ⇒ 1.0. -/
def calculate_media_accessibility_metric (p : PageData) : ℚ :=
  let video_elements := p.media_elements.filter
    (fun e => e.mtype = "video" ∨ e.mtype = "embedded_video")
  if video_elements = [] then 1
  else ((video_elements.countP videoAccessible : ℚ)) / video_elements.length

/-- Embedding of `OperabilityMetrics._fallback_keyboard_analysis`. -/
def fallback_keyboard_analysis (p : PageData) : ℚ :=
  if p.interactive_elements = [] then 1
  else ((p.interactive_elements.countP is_keyboard_accessible : ℚ)) /
    p.interactive_elements.length

/-- Embedding of `OperabilityMetrics.calculate_keyboard_navigation_metric`:
ratio of focusable elements among the probed ones; without probe results the
attribute-based fallback runs (the inner `total_elements == 0` guard of the
source is unreachable there because the list is non-empty, and is kept). -/
def calculate_keyboard_navigation_metric (p : PageData) : ℚ :=
  if p.focus_test_results = [] then fallback_keyboard_analysis p
  else if p.focus_test_results.length = 0 then 1
  else ((p.focus_test_results.countP (fun r => r.focusable) : ℚ)) /
    p.focus_test_results.length

/-- Embedding of `OperabilityMetrics.calculate_structured_navigation_metric`:
pass ratio over the heading rules; no headings ⇒ 1.0. -/
def calculate_structured_navigation_metric (p : PageData) : ℚ :=
  let total_headings := axeTotalCount p.axe_results heading_rules
  let correct_headings := axeCorrectCount p.axe_results heading_rules
  if total_headings = 0 then 1
  else (correct_headings : ℚ) / total_headings

/-- Embedding of
`UnderstandabilityMetrics.calculate_instruction_clarity_metric`: clear share
of the extracted instructions, judged with field-type context; none ⇒ 1.0. -/
def calculate_instruction_clarity_metric (ts : TextstatOracle) (p : PageData) : ℚ :=
  if p.instructions = [] then 1
  else ((p.instructions.countP
      (fun i => assess_instruction_clarity_with_context ts i.text i.field_type) : ℚ)) /
    p.instructions.length

/-- Embedding of
`UnderstandabilityMetrics.calculate_input_assistance_metric`: assisted share
of the text-like fields; no HTML or no such fields ⇒ 1.0. -/
def calculate_input_assistance_metric (p : PageData) : ℚ :=
  if ¬ p.html_available then 1
  else
    let fields := p.assist_fields.filter
      (fun f => f.isTextarea ∨ f.itype ∈ text_input_types)
    if fields.length = 0 then 1
    else ((fields.countP hasAssistance : ℚ)) / fields.length

/-! ## Form Probe (`core/utils/form_tester.py`, systematic algorithm) -/

/-- One test scenario (`{'value': …, 'type': …, 'description': …}`). -/
structure Scenario where
  value : String
  stype : String
  description : String
deriving DecidableEq

/-- The scenario library `FormTester.invalid_test_scenarios`, keyed by field
type.  The two long literal values (`'a' * 255 + '@test.com'` and
`'1' * 50`) are built with `List.replicate`. -/
def invalid_test_scenarios (field_type : String) : Option (List Scenario) :=
  if field_type = "email" then some
    [⟨"", "empty", "Порожнє поле"⟩,
     ⟨"abc", "invalid_format", "Невірний формат"⟩,
     ⟨"test@", "incomplete", "Неповний email"⟩,
     ⟨"@domain.com", "missing_local", "Відсутня локальна частина"⟩,
     ⟨String.mk (List.replicate 255 'a') ++ "@test.com", "too_long", "Занадто довгий"⟩]
  else if field_type = "number" then some
    [⟨"", "empty", "Порожнє поле"⟩,
     ⟨"abc", "non_numeric", "Не число"⟩,
     ⟨"12.34.56", "invalid_format", "Невірний формат"⟩,
     ⟨"999999999999999999999", "too_large", "Занадто велике число"⟩]
  else if field_type = "tel" then some
    [⟨"", "empty", "Порожнє поле"⟩,
     ⟨"123", "too_short", "Занадто короткий"⟩,
     ⟨"abc-def-ghij", "invalid_chars", "Невірні символи"⟩,
     ⟨String.mk (List.replicate 50 '1'), "too_long", "Занадто довгий"⟩]
  else if field_type = "url" then some
    [⟨"", "empty", "Порожнє поле"⟩,
     ⟨"not-url", "invalid_format", "Невірний формат"⟩,
     ⟨"http://", "incomplete", "Неповний URL"⟩,
     ⟨"ftp://invalid", "unsupported_protocol", "Непідтримуваний протокол"⟩]
  else if field_type = "date" then some
    [⟨"", "empty", "Порожнє поле"⟩,
     ⟨"32/13/2023", "invalid_date", "Неіснуюча дата"⟩,
     ⟨"not-date", "invalid_format", "Невірний формат"⟩,
     ⟨"2023-13-45", "invalid_values", "Невірні значення"⟩]
  else if field_type = "time" then some
    [⟨"", "empty", "Порожнє поле"⟩,
     ⟨"25:99", "invalid_time", "Неіснуючий час"⟩,
     ⟨"not-time", "invalid_format", "Невірний формат"⟩]
  else if field_type = "password" then some
    [⟨"", "empty", "Порожній пароль"⟩,
     ⟨"123", "too_short", "Занадто короткий"⟩,
     ⟨"   ", "whitespace_only", "Тільки пробіли"⟩]
  else if field_type = "text" then some
    [⟨"", "empty", "Порожнє поле"⟩,
     ⟨"   ", "whitespace_only", "Тільки пробіли"⟩]
  else if field_type = "textarea" then some
    [⟨"", "empty", "Порожнє поле"⟩,
     ⟨"   ", "whitespace_only", "Тільки пробіли"⟩]
  else none

/-- A field descriptor as `_discover_form_fields` builds it.  `maxLength`
carries the numeric `maxLength` when present (`None`/`0` are both falsy in
the source guard); `minNum`/`maxNum` are the parsed `min`/`max` attribute
values of a number field — `none` covers an absent or empty attribute and
the `float()` parse failure that the source's `except` swallows. -/
structure FieldData where
  ftype : String
  required : Bool
  maxLength : Option Int
  minNum : Option ℚ
  maxNum : Option ℚ
deriving DecidableEq

/-- The generic scenarios used for field types missing from the library. -/
def generic_scenarios : List Scenario :=
  [⟨"", "empty", "Порожнє поле"⟩,
   ⟨"   ", "whitespace", "Тільки пробіли"⟩]

/-- Embedding of `FormTester._generate_test_scenarios`: library (or
generic) scenarios with the `empty` scenario dropped for non-required
fields, plus boundary scenarios synthesized from `maxLength`/`min`/`max`,
truncated to the first three.  Numeric values are rendered with `toString`
(Python formats the floats slightly differently, e.g. `4.0`; only scenario
counts and kinds are the subject of the theorems). -/
def generate_test_scenarios (field_data : FieldData) : List Scenario :=
  let base_scenarios :=
    match invalid_test_scenarios field_data.ftype with
    | some scs => scs
    | none => generic_scenarios
  let scenarios := base_scenarios.filter
    (fun s => ¬ (s.stype = "empty" ∧ ¬ field_data.required))
  let scenarios := scenarios ++
    (match field_data.maxLength with
     | some n =>
       if n > 0 then
         [⟨String.mk (List.replicate (n + 10).toNat 'a'), "exceeds_maxlength",
           "Перевищує maxLength (" ++ toString n ++ ")"⟩]
       else []
     | none => []) ++
    (match field_data.minNum with
     | some m =>
       if field_data.ftype = "number" then
         [⟨toString (m - 1), "below_min", "Менше мінімуму (" ++ toString m ++ ")"⟩]
       else []
     | none => []) ++
    (match field_data.maxNum with
     | some m =>
       if field_data.ftype = "number" then
         [⟨toString (m + 1), "above_max", "Більше максимуму (" ++ toString m ++ ")"⟩]
       else []
     | none => [])
  scenarios.take 3

/-- The signal set `_collect_error_signals` assembles for one scenario,
reduced to the boolean observations that enter detection and scoring:
`html5_invalid` is `!field.validity.valid`; `aria_invalid_true` is
`aria-invalid == "true"`; `describedby_content` is a resolved, non-empty
`aria-describedby` text; `role_alert_nonempty` is a `role="alert"` element
with non-empty text; `dom_error_elements` / `dom_error_keywords` are the
two halves of the DOM cross-check; the two CSS observations are the
`:invalid` border difference and a known error class. -/
structure SignalSet where
  html5_invalid : Bool
  aria_invalid_true : Bool
  describedby_content : Bool
  role_alert_nonempty : Bool
  dom_error_elements : Bool
  dom_error_keywords : Bool
  css_border_diff : Bool
  css_error_class : Bool
deriving DecidableEq

/-- `signals['html5_api']['detected']`. -/
def SignalSet.html5Detected (s : SignalSet) : Bool := s.html5_invalid

/-- `signals['aria_support']['detected']` (set by any of the three ARIA
observations in `_collect_error_signals`). -/
def SignalSet.ariaDetected (s : SignalSet) : Bool :=
  s.aria_invalid_true || s.describedby_content || s.role_alert_nonempty

/-- `signals['dom_changes']['detected']` (error elements present and their
texts carry an error keyword). -/
def SignalSet.domDetected (s : SignalSet) : Bool :=
  s.dom_error_elements && s.dom_error_keywords

/-- `signals['css_states']['detected']`. -/
def SignalSet.cssDetected (s : SignalSet) : Bool :=
  s.css_border_diff || s.css_error_class

/-- The `error_detected` disjunction of `_test_scenario`. -/
def errorDetected (s : SignalSet) : Bool :=
  s.html5Detected || s.ariaDetected || s.domDetected || s.cssDetected

/-- The all-false signal structure `_empty_signals` (also what a failing
scenario ends up contributing: its result carries empty signals and quality
0, exactly the value `_calculate_scenario_quality` assigns them). -/
def empty_signals : SignalSet :=
  ⟨false, false, false, false, false, false, false, false⟩

/-- Embedding of `FormTester._calculate_scenario_quality`. -/
def calculate_scenario_quality (signals : SignalSet) : ℚ :=
  let score : ℚ := if signals.html5Detected then 0.25 else 0
  let score := score +
    (if signals.ariaDetected then
      min ((if signals.aria_invalid_true then (0.15 : ℚ) else 0) +
        (if signals.describedby_content then 0.15 else 0) +
        (if signals.role_alert_nonempty then 0.05 else 0)) 0.35
     else 0)
  let score := score + (if signals.domDetected then 0.25 else 0)
  let score := score + (if signals.cssDetected then 0.15 else 0)
  min score 1

/-- The `error_detection_summary` dictionary of `_test_field_systematic`. -/
structure DetectionSummary where
  html5_api : Bool
  aria_support : Bool
  dom_changes : Bool
  css_states : Bool
deriving DecidableEq

/-- One update step of the summary: the source ORs the four channel flags
into the summary only when the scenario detected any error at all. -/
def updateSummary (d : DetectionSummary) (s : SignalSet) : DetectionSummary :=
  if errorDetected s then
    ⟨d.html5_api || s.html5Detected, d.aria_support || s.ariaDetected,
     d.dom_changes || s.domDetected, d.css_states || s.cssDetected⟩
  else d

/-- The summary accumulated over a field's scenario signal sets. -/
def summaryOf (sigs : List SignalSet) : DetectionSummary :=
  sigs.foldl updateSummary ⟨false, false, false, false⟩

/-- `any(field_result['error_detection_summary'].values())` — the field's
`overall_support`. -/
def overall_support (sigs : List SignalSet) : Bool :=
  let d := summaryOf sigs
  d.html5_api || d.aria_support || d.dom_changes || d.css_states

/-- `sum(field_result['error_detection_summary'].values())` — the number of
detection methods, for the diversity bonus. -/
def detectionMethodCount (d : DetectionSummary) : ℕ :=
  (if d.html5_api then 1 else 0) + (if d.aria_support then 1 else 0) +
  (if d.dom_changes then 1 else 0) + (if d.css_states then 1 else 0)

/-- Embedding of `FormTester._calculate_field_quality_score` over the
field's scenario signal sets (each scenario result's `quality_score` is
`_calculate_scenario_quality` of its signals, 0 for a failed scenario —
which is the quality of its empty signals). -/
def calculate_field_quality_score (sigs : List SignalSet) : ℚ :=
  if sigs = [] then 0
  else
    let avg_scenario_score :=
      ((sigs.map calculate_scenario_quality).sum) / sigs.length
    let diversity_bonus :=
      min ((detectionMethodCount (summaryOf sigs) : ℚ) * 0.1) 0.2
    min (avg_scenario_score + diversity_bonus) 1

/-- The systematic form result (`_compile_systematic_results` /
`_create_systematic_result`), reduced to the fields the claims are about;
`reason` is present exactly on the failure path. -/
structure SystematicResult where
  total_fields : ℕ
  supported_fields : ℕ
  quality_score : ℚ
  reason : Option String
  has_error_response : Bool
  field_specific_errors : Bool
deriving DecidableEq

/-- Embedding of `FormTester._create_systematic_result`. -/
def create_systematic_result (reason : String) : SystematicResult :=
  { total_fields := 0, supported_fields := 0, quality_score := 0,
    reason := some reason, has_error_response := false,
    field_specific_errors := false }

/-- Embedding of `FormTester._compile_systematic_results`: a probed field is
represented by the signal sets of its scenarios. -/
def compile_systematic_results (fields : List (List SignalSet)) : SystematicResult :=
  let total_fields := fields.length
  let supported_fields := fields.countP overall_support
  let average_quality : ℚ :=
    if total_fields > 0 then
      ((fields.map calculate_field_quality_score).sum) / total_fields
    else 0
  { total_fields := total_fields, supported_fields := supported_fields,
    quality_score := average_quality, reason := none,
    has_error_response := supported_fields > 0,
    field_specific_errors := fields.any overall_support }

/-- Embedding of `FormTester.test_form_error_behavior_systematic`.  The
interactions with the live page are its failure points: the form-existence
check and the field discovery are modelled as `Except`-valued inputs whose
`error` case is the exception the source's outer `try` catches (per-scenario
failures are already absorbed inside `_test_scenario` as empty signals).
The function is total — every failure input still yields a
`SystematicResult`, which is the non-propagation guarantee. -/
def test_form_error_behavior_systematic (form_exists : Except String Bool)
    (discovery : Except String (List (List SignalSet))) : SystematicResult :=
  match form_exists with
  | .error e => create_systematic_result ("Помилка: " ++ e)
  | .ok false => create_systematic_result "Форма не знайдена"
  | .ok true =>
    match discovery with
    | .error e => create_systematic_result ("Помилка: " ++ e)
    | .ok [] => create_systematic_result "Поля не знайдено"
    | .ok fields => compile_systematic_results fields

/-! ## Helper lemmas -/

/-- Membership in the closed unit interval, the invariant claimed for every
metric, subscore and final-score value. -/
def unitInterval (x : ℚ) : Prop := 0 ≤ x ∧ x ≤ 1

lemma clamp01_mem (x : ℚ) : unitInterval (clamp01 x) := by
  constructor
  · exact le_max_left 0 _
  · exact max_le (by norm_num) (min_le_left 1 x)

lemma natRatio_mem {a b : ℕ} (hab : a ≤ b) : unitInterval ((a : ℚ) / b) := by
  constructor
  · positivity
  · rcases Nat.eq_zero_or_pos b with hb | hb
    · subst hb; simp
    · rw [div_le_one (by exact_mod_cast hb)]
      exact_mod_cast hab

lemma list_avg_mem {l : List ℚ} (h : ∀ x ∈ l, unitInterval x) :
    unitInterval (l.sum / l.length) := by
  rcases eq_or_ne l [] with rfl | hne
  · simp [unitInterval]
  · have hlen : 0 < (l.length : ℚ) := by
      exact_mod_cast List.length_pos.2 hne
    constructor
    · exact div_nonneg (List.sum_nonneg (fun x hx => (h x hx).1)) hlen.le
    · rw [div_le_one hlen]
      calc l.sum ≤ l.length • (1 : ℚ) :=
            List.sum_le_card_nsmul l 1 (fun x hx => (h x hx).2)
        _ = (l.length : ℚ) := by simp

/-! ## Claim theorems -/

/-- C2: for subscores inside `[0,1]` the final score equals the weighted
formula `0.6·(0.3·perceptibility + 0.3·operability + 0.4·understandability)
+ 0.4·localization` (the clamp is the identity there), and at the concrete
subscores `{0.8, 0.6, 0.7, 0.5}` the final score is exactly `0.62`. -/
theorem final_score_formula (s : Subscores)
    (hp0 : 0 ≤ s.perceptibility) (hp1 : s.perceptibility ≤ 1)
    (ho0 : 0 ≤ s.operability) (ho1 : s.operability ≤ 1)
    (hu0 : 0 ≤ s.understandability) (hu1 : s.understandability ≤ 1)
    (hl0 : 0 ≤ s.localization) (hl1 : s.localization ≤ 1) :
    calculate_final_score s =
      0.6 * (0.3 * s.perceptibility + 0.3 * s.operability +
        0.4 * s.understandability) + 0.4 * s.localization ∧
    calculate_final_score ⟨0.8, 0.6, 0.7, 0.5⟩ = 0.62 := by
  constructor
  · unfold calculate_final_score clamp01
    rw [min_eq_right (by linarith), max_eq_right (by linarith)]
  · norm_num [calculate_final_score, clamp01]

/-- Witness for C2 at the concrete subscores of the claim. -/
theorem final_score_formula_witness :
    calculate_final_score ⟨0.8, 0.6, 0.7, 0.5⟩ =
      0.6 * (0.3 * (0.8 : ℚ) + 0.3 * 0.6 + 0.4 * 0.7) + 0.4 * 0.5 ∧
    calculate_final_score ⟨0.8, 0.6, 0.7, 0.5⟩ = 0.62 :=
  final_score_formula ⟨0.8, 0.6, 0.7, 0.5⟩ (by norm_num) (by norm_num)
    (by norm_num) (by norm_num) (by norm_num) (by norm_num)
    (by norm_num) (by norm_num)

/-- C3: over `[0,1]` the five quality levels are characterised by the four
thresholds `0.618 / 0.382 / 0.236 / 0.146` — the intervals are exhaustive
and pairwise disjoint, each score gets the tier whose lower bound is the
largest threshold not exceeding it — and `0.62` maps to the top level
("Відмінно") because `0.618 ≤ 0.62`. -/
theorem quality_level_partition (score : ℚ) (h0 : 0 ≤ score) (h1 : score ≤ 1) :
    (get_quality_level score = "Відмінно" ↔ 0.618 ≤ score) ∧
    (get_quality_level score = "Добре" ↔ 0.382 ≤ score ∧ score < 0.618) ∧
    (get_quality_level score = "Задовільно" ↔ 0.236 ≤ score ∧ score < 0.382) ∧
    (get_quality_level score = "Погано" ↔ 0.146 ≤ score ∧ score < 0.236) ∧
    (get_quality_level score = "Дуже погано" ↔ score < 0.146) ∧
    get_quality_level 0.62 = "Відмінно" := by
  refine ⟨?_, ?_, ?_, ?_, ?_, by norm_num [get_quality_level]⟩
  all_goals
    unfold get_quality_level
    split_ifs with ha hb hc hd <;> constructor <;> intro h <;>
      first
        | rfl
        | linarith
        | (exact absurd h (by decide))
        | (exact ⟨by linarith, by linarith⟩)
        | (exfalso; obtain ⟨hx, hy⟩ := h; linarith)
        | (exfalso; linarith)

/-- Witness for C3 at the concrete score `0.5`. -/
theorem quality_level_partition_witness :
    (get_quality_level 0.5 = "Відмінно" ↔ (0.618 : ℚ) ≤ 0.5) ∧
    (get_quality_level 0.5 = "Добре" ↔ (0.382 : ℚ) ≤ 0.5 ∧ (0.5 : ℚ) < 0.618) ∧
    (get_quality_level 0.5 = "Задовільно" ↔ (0.236 : ℚ) ≤ 0.5 ∧ (0.5 : ℚ) < 0.382) ∧
    (get_quality_level 0.5 = "Погано" ↔ (0.146 : ℚ) ≤ 0.5 ∧ (0.5 : ℚ) < 0.236) ∧
    (get_quality_level 0.5 = "Дуже погано" ↔ (0.5 : ℚ) < 0.146) ∧
    get_quality_level 0.62 = "Відмінно" :=
  quality_level_partition 0.5 (by norm_num) (by norm_num)

/-- C10: the four tier weights sum to `0.92`, the raw localization sum never
exceeds `0.92`, the `min(score, 1.0)` clamp never takes effect, and the
localization metric is strictly below `1`. -/
theorem localization_below_one (langs : List String) :
    localization_weights.uk + localization_weights.en + localization_weights.de +
      localization_weights.other = 0.92 ∧
    localization_raw_score langs ≤ 0.92 ∧
    calculate_localization_metric langs = localization_raw_score langs ∧
    calculate_localization_metric langs < 1 := by
  have hraw : localization_raw_score langs ≤ 0.92 := by
    unfold localization_raw_score localization_weights
    split_ifs <;> norm_num
  refine ⟨by norm_num [localization_weights], hraw, ?_, ?_⟩
  · exact min_eq_left (by linarith)
  · exact lt_of_le_of_lt (le_trans (min_le_left _ _) hraw) (by norm_num)

/-- C6: scenario generation emits the `empty` scenario only for required
fields — for any non-required field, of any type, no generated scenario has
kind `empty`. -/
theorem empty_scenario_only_when_required (field_data : FieldData) (s : Scenario)
    (hreq : field_data.required = false)
    (hs : s ∈ generate_test_scenarios field_data) : s.stype ≠ "empty" := by
  obtain ⟨ft, req, ml, mn, mx⟩ := field_data
  simp only at hreq
  subst hreq
  unfold generate_test_scenarios at hs
  have hs' := List.mem_of_mem_take hs
  simp only [List.mem_append] at hs'
  rcases hs' with ((hbase | hmaxlen) | hmin) | hmax
  · rw [List.mem_filter] at hbase
    have hcond := hbase.2
    simp at hcond
    exact hcond
  · cases ml with
    | none => simp at hmaxlen
    | some n =>
      simp only at hmaxlen
      split at hmaxlen
      · simp only [List.mem_singleton] at hmaxlen
        subst hmaxlen
        exact (by decide : ("exceeds_maxlength" : String) ≠ "empty")
      · simp at hmaxlen
  · cases mn with
    | none => simp at hmin
    | some m =>
      simp only at hmin
      split at hmin
      · simp only [List.mem_singleton] at hmin
        subst hmin
        exact (by decide : ("below_min" : String) ≠ "empty")
      · simp at hmin
  · cases mx with
    | none => simp at hmax
    | some m =>
      simp only at hmax
      split at hmax
      · simp only [List.mem_singleton] at hmax
        subst hmax
        exact (by decide : ("above_max" : String) ≠ "empty")
      · simp at hmax

/-- Witness for C6 on a concrete non-required text field and the scenario it
actually generates. -/
theorem empty_scenario_only_when_required_witness :
    (FieldData.mk "text" false none none none).required = false ∧
    Scenario.mk "   " "whitespace_only" "Тільки пробіли" ∈
      generate_test_scenarios (FieldData.mk "text" false none none none) ∧
    (Scenario.mk "   " "whitespace_only" "Тільки пробіли").stype ≠ "empty" :=
  ⟨rfl, by decide,
    empty_scenario_only_when_required (FieldData.mk "text" false none none none)
      (Scenario.mk "   " "whitespace_only" "Тільки пробіли") rfl (by decide)⟩

/-- C8: a form whose probe finds no form, discovers no testable field, or
throws at the form level yields the fixed zero result — `total_fields = 0`,
`supported_fields = 0`, `quality_score = 0` and a `reason` string — instead
of propagating the failure (the embedded probe is a total function into
`SystematicResult`). -/
theorem systematic_probe_failure_result (form_exists : Except String Bool)
    (discovery : Except String (List (List SignalSet)))
    (h : (∃ e, form_exists = .error e) ∨ form_exists = .ok false ∨
      (∃ e, discovery = .error e) ∨ discovery = .ok []) :
    (test_form_error_behavior_systematic form_exists discovery).total_fields = 0 ∧
    (test_form_error_behavior_systematic form_exists discovery).supported_fields = 0 ∧
    (test_form_error_behavior_systematic form_exists discovery).quality_score = 0 ∧
    (test_form_error_behavior_systematic form_exists discovery).reason.isSome := by
  rcases h with ⟨e, rfl⟩ | rfl | ⟨e, hdisc⟩ | hdisc
  · exact ⟨rfl, rfl, rfl, rfl⟩
  · exact ⟨rfl, rfl, rfl, rfl⟩
  · subst hdisc
    cases form_exists with
    | error e2 => exact ⟨rfl, rfl, rfl, rfl⟩
    | ok b => cases b <;> exact ⟨rfl, rfl, rfl, rfl⟩
  · subst hdisc
    cases form_exists with
    | error e2 => exact ⟨rfl, rfl, rfl, rfl⟩
    | ok b => cases b <;> exact ⟨rfl, rfl, rfl, rfl⟩

/-- Witness for C8: a page without the requested form. -/
theorem systematic_probe_failure_result_witness :
    (test_form_error_behavior_systematic (.ok false) (.ok [])).total_fields = 0 ∧
    (test_form_error_behavior_systematic (.ok false) (.ok [])).supported_fields = 0 ∧
    (test_form_error_behavior_systematic (.ok false) (.ok [])).quality_score = 0 ∧
    (test_form_error_behavior_systematic (.ok false) (.ok [])).reason.isSome :=
  systematic_probe_failure_result (.ok false) (.ok []) (Or.inr (Or.inl rfl))

/-- The number of distinct channels ever detected across a field's
scenarios, stated the way the claim words it (one indicator per channel,
quantified over all scenarios); compared below with the summary count the
source accumulates. -/
def everDetectedChannelCount (sigs : List SignalSet) : ℕ :=
  (if sigs.any SignalSet.html5Detected then 1 else 0) +
  (if sigs.any SignalSet.ariaDetected then 1 else 0) +
  (if sigs.any SignalSet.domDetected then 1 else 0) +
  (if sigs.any SignalSet.cssDetected then 1 else 0)

lemma foldl_updateSummary (sigs : List SignalSet) (d : DetectionSummary) :
    (sigs.foldl updateSummary d).html5_api =
      (d.html5_api || sigs.any SignalSet.html5Detected) ∧
    (sigs.foldl updateSummary d).aria_support =
      (d.aria_support || sigs.any SignalSet.ariaDetected) ∧
    (sigs.foldl updateSummary d).dom_changes =
      (d.dom_changes || sigs.any SignalSet.domDetected) ∧
    (sigs.foldl updateSummary d).css_states =
      (d.css_states || sigs.any SignalSet.cssDetected) := by
  induction sigs generalizing d with
  | nil => simp
  | cons s rest ih =>
    obtain ⟨ih1, ih2, ih3, ih4⟩ := ih (updateSummary d s)
    simp only [List.foldl_cons, List.any_cons]
    rw [ih1, ih2, ih3, ih4]
    unfold updateSummary
    split_ifs with hdet
    · simp [Bool.or_assoc]
    · have hall : s.html5Detected = false ∧ s.ariaDetected = false ∧
          s.domDetected = false ∧ s.cssDetected = false := by
        unfold errorDetected at hdet
        simp only [Bool.or_eq_true, not_or, Bool.not_eq_true] at hdet
        exact ⟨hdet.1.1.1, hdet.1.1.2, hdet.1.2, hdet.2⟩
      rw [hall.1, hall.2.1, hall.2.2.1, hall.2.2.2]
      simp

lemma summaryOf_channels (sigs : List SignalSet) :
    (summaryOf sigs).html5_api = sigs.any SignalSet.html5Detected ∧
    (summaryOf sigs).aria_support = sigs.any SignalSet.ariaDetected ∧
    (summaryOf sigs).dom_changes = sigs.any SignalSet.domDetected ∧
    (summaryOf sigs).css_states = sigs.any SignalSet.cssDetected := by
  have h := foldl_updateSummary sigs ⟨false, false, false, false⟩
  simpa [summaryOf] using h

/-- C7: per-scenario quality is exactly the weighted channel sum
(0.25 html5 + 0.15 aria-invalid + 0.15 describedby + 0.05 alert +
0.25 dom + 0.15 css — the inner 0.35 aria cap and the outer 1.0 cap never
bind); a field's `overall_support` holds exactly when some channel was
detected in some scenario; and the field quality is the mean scenario
quality plus a diversity bonus of 0.1 per distinct channel ever detected,
capped at 0.2, the total capped at 1.0. -/
theorem probe_quality_aggregation (signals : SignalSet) (sigs : List SignalSet)
    (hne : sigs ≠ []) :
    calculate_scenario_quality signals =
      (if signals.html5Detected then (0.25 : ℚ) else 0) +
      ((if signals.aria_invalid_true then (0.15 : ℚ) else 0) +
        (if signals.describedby_content then (0.15 : ℚ) else 0) +
        (if signals.role_alert_nonempty then (0.05 : ℚ) else 0)) +
      (if signals.domDetected then (0.25 : ℚ) else 0) +
      (if signals.cssDetected then (0.15 : ℚ) else 0) ∧
    (overall_support sigs = true ↔ ∃ x ∈ sigs, errorDetected x = true) ∧
    calculate_field_quality_score sigs =
      min (((sigs.map calculate_scenario_quality).sum) / sigs.length +
        min ((everDetectedChannelCount sigs : ℚ) * 0.1) 0.2) 1 := by
  obtain ⟨hch1, hch2, hch3, hch4⟩ := summaryOf_channels sigs
  refine ⟨?_, ?_, ?_⟩
  · have ha1 : (if signals.aria_invalid_true then (0.15 : ℚ) else 0) ≤ 0.15 := by
      split_ifs <;> norm_num
    have ha2 : (if signals.describedby_content then (0.15 : ℚ) else 0) ≤ 0.15 := by
      split_ifs <;> norm_num
    have ha3 : (if signals.role_alert_nonempty then (0.05 : ℚ) else 0) ≤ 0.05 := by
      split_ifs <;> norm_num
    have haria : (if signals.ariaDetected then
        min ((if signals.aria_invalid_true then (0.15 : ℚ) else 0) +
          (if signals.describedby_content then (0.15 : ℚ) else 0) +
          (if signals.role_alert_nonempty then (0.05 : ℚ) else 0)) 0.35
        else 0) =
        (if signals.aria_invalid_true then (0.15 : ℚ) else 0) +
          (if signals.describedby_content then (0.15 : ℚ) else 0) +
          (if signals.role_alert_nonempty then (0.05 : ℚ) else 0) := by
      by_cases hdet : signals.ariaDetected = true
      · rw [if_pos hdet]
        exact min_eq_left (by linarith)
      · rw [if_neg hdet]
        unfold SignalSet.ariaDetected at hdet
        simp only [Bool.or_eq_true, not_or, Bool.not_eq_true] at hdet
        rw [hdet.1.1, hdet.1.2, hdet.2]
        simp
    simp only [calculate_scenario_quality]
    rw [haria]
    have hA : (if signals.html5Detected then (0.25 : ℚ) else 0) ≤ 0.25 := by
      split_ifs <;> norm_num
    have hD : (if signals.domDetected then (0.25 : ℚ) else 0) ≤ 0.25 := by
      split_ifs <;> norm_num
    have hC : (if signals.cssDetected then (0.15 : ℚ) else 0) ≤ 0.15 := by
      split_ifs <;> norm_num
    exact min_eq_left (by linarith)
  · show ((summaryOf sigs).html5_api || (summaryOf sigs).aria_support ||
      (summaryOf sigs).dom_changes || (summaryOf sigs).css_states) = true ↔ _
    rw [hch1, hch2, hch3, hch4]
    simp only [Bool.or_eq_true, List.any_eq_true]
    unfold errorDetected
    constructor
    · rintro (((⟨x, hx, hd⟩ | ⟨x, hx, hd⟩) | ⟨x, hx, hd⟩) | ⟨x, hx, hd⟩) <;>
        exact ⟨x, hx, by simp [hd]⟩
    · rintro ⟨x, hx, hd⟩
      simp only [Bool.or_eq_true] at hd
      rcases hd with ((hd | hd) | hd) | hd
      · exact Or.inl (Or.inl (Or.inl ⟨x, hx, hd⟩))
      · exact Or.inl (Or.inl (Or.inr ⟨x, hx, hd⟩))
      · exact Or.inl (Or.inr ⟨x, hx, hd⟩)
      · exact Or.inr ⟨x, hx, hd⟩
  · unfold calculate_field_quality_score
    rw [if_neg hne]
    have hcount : detectionMethodCount (summaryOf sigs) = everDetectedChannelCount sigs := by
      unfold detectionMethodCount everDetectedChannelCount
      rw [hch1, hch2, hch3, hch4]
    rw [hcount]

/-- Witness for C7 on a one-scenario field whose only signal is an
`aria-invalid="true"` observation. -/
theorem probe_quality_aggregation_witness :
    calculate_scenario_quality ⟨false, true, false, false, false, false, false, false⟩ =
      (if SignalSet.html5Detected ⟨false, true, false, false, false, false, false, false⟩
        then (0.25 : ℚ) else 0) +
      ((if (true : Bool) then (0.15 : ℚ) else 0) +
        (if (false : Bool) then (0.15 : ℚ) else 0) +
        (if (false : Bool) then (0.05 : ℚ) else 0)) +
      (if SignalSet.domDetected ⟨false, true, false, false, false, false, false, false⟩
        then (0.25 : ℚ) else 0) +
      (if SignalSet.cssDetected ⟨false, true, false, false, false, false, false, false⟩
        then (0.15 : ℚ) else 0) ∧
    (overall_support [⟨false, true, false, false, false, false, false, false⟩] = true ↔
      ∃ x ∈ [(⟨false, true, false, false, false, false, false, false⟩ : SignalSet)],
        errorDetected x = true) ∧
    calculate_field_quality_score [⟨false, true, false, false, false, false, false, false⟩] =
      min ((([(⟨false, true, false, false, false, false, false, false⟩ : SignalSet)].map
          calculate_scenario_quality).sum) /
        (List.length [(⟨false, true, false, false, false, false, false, false⟩ : SignalSet)]) +
        min ((everDetectedChannelCount
          [⟨false, true, false, false, false, false, false, false⟩] : ℚ) * 0.1) 0.2) 1 :=
  probe_quality_aggregation ⟨false, true, false, false, false, false, false, false⟩
    [⟨false, true, false, false, false, false, false, false⟩] (by decide)

/-- A 26-word instruction containing an email example: it exceeds the
25-word cap, yet the email-context path classifies it as clear. -/
def emailCexText : String :=
  "a@gmail.com b c d e f g h i j k l m n o p q r s t u v w x y z"

/-- Counterexample to C9 as stated: for an email-typed field context the
classifier returns `clear` on a text of more than 25 words — the
`>25 words ⇒ unclear` rule does not hold on the email path. -/
theorem clarity_gates_cex :
    25 < (pyWords emailCexText).length ∧
    assess_instruction_clarity_with_context
      ⟨fun _ => none⟩ emailCexText "email" = true := by
  constructor <;> decide

/-- C9 (amended): the standard clarity assessment — and hence the
context-sensitive assessment for every non-email field type — returns
`unclear` whenever the stripped length is below 2, the length exceeds 200,
the word count exceeds 25 or the sentence count exceeds 3; on the
email-context path only the two length gates are guaranteed. -/
theorem clarity_gates (ts : TextstatOracle) (text : String) (field_type : String)
    (h : (pyStrip text).length < 2 ∨ 200 < text.length ∨
      25 < (pyWords text).length ∨ 3 < sentenceSplitCount (pyStrip text)) :
    assess_instruction_clarity ts text = false ∧
    (field_type ≠ "email" →
      assess_instruction_clarity_with_context ts text field_type = false) ∧
    ((pyStrip text).length < 2 ∨ 200 < text.length →
      assess_instruction_clarity_with_context ts text "email" = false) := by
  have hmain : assess_instruction_clarity ts text = false := by
    simp only [assess_instruction_clarity]
    split_ifs with h1 h2 h3 h4 h5 <;> try rfl
    all_goals
      exfalso
      simp only [Bool.and_eq_true, decide_eq_true_eq, not_and, not_le,
        Decidable.not_not, not_lt] at h1 h2 h3
      rcases h with hh | hh | hh | hh <;> omega
  refine ⟨hmain, ?_, ?_⟩
  · intro hft
    unfold assess_instruction_clarity_with_context
    rw [if_neg hft]
    exact hmain
  · intro hlen
    unfold assess_instruction_clarity_with_context
    rw [if_pos rfl]
    unfold assess_email_instruction
    by_cases hs : (pyStrip text).length < 2
    · rw [if_pos hs]
    · rcases hlen with hl | hl
      · exact absurd hl hs
      · rw [if_neg hs, if_pos hl]

/-- Witness for C9 on a one-character instruction. -/
theorem clarity_gates_witness :
    assess_instruction_clarity ⟨fun _ => none⟩ "x" = false ∧
    assess_instruction_clarity_with_context ⟨fun _ => none⟩ "x" "text" = false ∧
    assess_instruction_clarity_with_context ⟨fun _ => none⟩ "x" "email" = false := by
  have h := clarity_gates ⟨fun _ => none⟩ "x" "text" (Or.inl (by decide))
  exact ⟨h.1, h.2.1 (by decide), h.2.2 (Or.inl (by decide))⟩

/-- A required `textarea` with no error-support features beyond the
`required` flag: its static error-support quality is `0.1`. -/
def c4field : ErrField :=
  { isTextarea := true, itype := "textarea", required := true, pattern := false,
    aria_invalid := false, describedby_resolves := false,
    describedby_messages := [], referenced_in_scripts := false }

/-- A page with one form around `c4field` and one successful dynamic probe
result of quality `0`. -/
def c4input : ErrSupportInput :=
  { html_available := true, forms := [[c4field]], individual_fields := [],
    pageFacts := ⟨false, false, false⟩,
    form_error_test_results := [⟨false, 0⟩] }

/-- The same page but with a dynamic probe result of quality `1/2`. -/
def c4inputPos : ErrSupportInput :=
  { html_available := true, forms := [[c4field]], individual_fields := [],
    pageFacts := ⟨false, false, false⟩,
    form_error_test_results := [⟨false, 1/2⟩] }

lemma c4_static : static_average c4input = 0.1 := by
  norm_num [static_average, effectiveForms, c4input, c4field,
    analyze_form_error_support_quality, field_needs_validation,
    analyze_field_error_support, phase1_basic_error_support,
    phase2_message_quality, phase3_dynamic_validation, List.filter]

/-- Counterexample to C4 as stated: dynamic Form Probe results exist for
this page (one successful result, of quality `0`), yet `error_support` is
the static score `0.1` alone, not
`0.4 · static + 0.6 · dynamic = 0.04` — the source switches on
`dynamic_average > 0`, not on the existence of dynamic results. -/
theorem hybrid_weighting_cex :
    c4input.form_error_test_results ≠ [] ∧
    static_average c4input = 0.1 ∧
    dynamic_average c4input.form_error_test_results = 0 ∧
    calculate_error_support_metric_enhanced c4input ≠
      0.4 * static_average c4input +
        0.6 * dynamic_average c4input.form_error_test_results := by
  have hdyn : dynamic_average c4input.form_error_test_results = 0 := by
    norm_num [dynamic_average, c4input, List.filter]
  have hmetric : calculate_error_support_metric_enhanced c4input =
      static_average c4input := by
    simp only [calculate_error_support_metric_enhanced]
    rw [if_neg (by norm_num [c4input])]
    rw [if_neg (by norm_num [effectiveForms, c4input])]
    rw [if_neg (by rw [hdyn]; norm_num)]
  refine ⟨by norm_num [c4input], c4_static, hdyn, ?_⟩
  rw [hmetric, c4_static, hdyn]
  norm_num

/-- C4 (amended): with HTML available and at least one (real or virtual)
form, `error_support` is `0.4 · static + 0.6 · dynamic` exactly when the
dynamic average quality is positive; otherwise — including when dynamic
results exist but all failed or all scored zero — it is the static score
alone. -/
theorem hybrid_weighting (inp : ErrSupportInput)
    (hhtml : inp.html_available = true)
    (hforms : effectiveForms inp ≠ []) :
    (0 < dynamic_average inp.form_error_test_results →
      calculate_error_support_metric_enhanced inp =
        static_average inp * 0.4 +
          dynamic_average inp.form_error_test_results * 0.6) ∧
    (dynamic_average inp.form_error_test_results ≤ 0 →
      calculate_error_support_metric_enhanced inp = static_average inp) := by
  constructor <;> intro hdyn <;> simp only [calculate_error_support_metric_enhanced]
  · rw [if_neg (by simp [hhtml]), if_neg hforms, if_pos hdyn]
  · rw [if_neg (by simp [hhtml]), if_neg hforms, if_neg (not_lt.2 hdyn)]

/-- Witness for C4 on the two concrete pages (positive and zero dynamic
average). -/
theorem hybrid_weighting_witness :
    calculate_error_support_metric_enhanced c4inputPos =
      static_average c4inputPos * 0.4 +
        dynamic_average c4inputPos.form_error_test_results * 0.6 ∧
    calculate_error_support_metric_enhanced c4input = static_average c4input := by
  constructor
  · exact (hybrid_weighting c4inputPos rfl
      (by norm_num [effectiveForms, c4inputPos])).1
      (by norm_num [dynamic_average, c4inputPos, List.filter])
  · exact (hybrid_weighting c4input rfl
      (by norm_num [effectiveForms, c4input])).2
      (by norm_num [dynamic_average, c4input, List.filter])

/-- A page with no HTML content and empty rule-engine results: every
denominator population is empty. -/
def c5page : PageData :=
  { html_available := false, axe_results := ⟨[], []⟩, images := [],
    fallback_text_elements_count := 0, media_elements := [],
    focus_test_results := [], interactive_elements := [], instructions := [],
    assist_fields := [],
    errorSupport := ⟨false, [], [], ⟨false, false, false⟩, []⟩,
    available_languages := [] }

/-- Counterexample to C5 as stated: on a page with no HTML content the
contrast population is empty (the rule engine reports no text elements and
none exist), yet the contrast metric returns `0.8`, not `1.0`. -/
theorem empty_population_cex :
    axeTotalCount c5page.axe_results contrast_rules = 0 ∧
    c5page.fallback_text_elements_count = 0 ∧
    calculate_contrast_metric c5page = 0.8 ∧
    calculate_contrast_metric c5page ≠ 1 := by
  have h08 : calculate_contrast_metric c5page = 0.8 := by
    norm_num [calculate_contrast_metric, fallback_contrast_analysis,
      axeTotalCount, rulePassCount, ruleViolationCount, get_axe_rule_results,
      contrast_rules, c5page]
  refine ⟨rfl, rfl, h08, ?_⟩
  rw [h08]; norm_num

/-- C5 (amended): every metric with an empty denominator population returns
exactly `1.0` — no images for the rule engine and none in HTML (or no HTML)
for `alt_text`, no videos for `media_accessibility`, no headings for
`structured_navigation`, no forms/fields and no validatable fields for
`error_support`, and no text elements for `contrast` when HTML content is
available; the one exception the code makes is the contrast fallback
without HTML content, which returns `0.8`.  All embedded metrics are total
functions, so no input raises an error. -/
theorem empty_population_neutral (p : PageData) (pg : ErrPageFacts)
    (form : ErrForm) :
    (axeTotalCount p.axe_results alt_related_rules = 0 ∧
        (p.html_available = false ∨ p.images = []) →
      calculate_alt_text_metric p = 1) ∧
    (p.media_elements.filter
        (fun e => e.mtype = "video" ∨ e.mtype = "embedded_video") = [] →
      calculate_media_accessibility_metric p = 1) ∧
    (axeTotalCount p.axe_results heading_rules = 0 →
      calculate_structured_navigation_metric p = 1) ∧
    (axeTotalCount p.axe_results contrast_rules = 0 ∧ p.html_available = true ∧
        p.fallback_text_elements_count = 0 →
      calculate_contrast_metric p = 1) ∧
    (axeTotalCount p.axe_results contrast_rules = 0 ∧ p.html_available = false →
      calculate_contrast_metric p = 0.8) ∧
    (effectiveForms p.errorSupport = [] →
      calculate_error_support_metric_enhanced p.errorSupport = 1) ∧
    (form.filter field_needs_validation = [] →
      analyze_form_error_support_quality pg form = 1) := by
  refine ⟨?_, ?_, ?_, ?_, ?_, ?_, ?_⟩
  · intro h
    simp only [calculate_alt_text_metric]
    rw [if_pos h.1]
    simp only [fallback_alt_text_analysis]
    rcases h.2 with hh | hh
    · rw [if_pos (by simp [hh])]
    · by_cases hv : p.html_available
      · rw [if_neg (by simp [hv]), if_pos (by simp [hh])]
      · rw [if_pos (by simp [hv])]
  · intro h
    simp only [calculate_media_accessibility_metric]
    rw [if_pos h]
  · intro h
    simp only [calculate_structured_navigation_metric]
    rw [if_pos h]
  · intro h
    simp only [calculate_contrast_metric]
    rw [if_pos h.1]
    simp only [fallback_contrast_analysis]
    rw [if_neg (by simp [h.2.1]), if_pos h.2.2]
  · intro h
    simp only [calculate_contrast_metric]
    rw [if_pos h.1]
    simp only [fallback_contrast_analysis]
    rw [if_pos (by simp [h.2])]
  · intro h
    simp only [calculate_error_support_metric_enhanced]
    by_cases hv : p.errorSupport.html_available
    · rw [if_neg (by simp [hv]), if_pos h]
    · rw [if_pos (by simp [hv])]
  · intro h
    simp only [analyze_form_error_support_quality]
    by_cases hform : form = ([] : List ErrField)
    · rw [if_pos hform]
    · rw [if_neg hform, if_pos h]

/-- Witness for C5 on a page with HTML content but empty populations. -/
theorem empty_population_neutral_witness :
    calculate_alt_text_metric
      { html_available := true, axe_results := ⟨[], []⟩, images := [],
        fallback_text_elements_count := 0, media_elements := [],
        focus_test_results := [], interactive_elements := [], instructions := [],
        assist_fields := [],
        errorSupport := ⟨true, [], [], ⟨false, false, false⟩, []⟩,
        available_languages := [] } = 1 ∧
    calculate_media_accessibility_metric
      { html_available := true, axe_results := ⟨[], []⟩, images := [],
        fallback_text_elements_count := 0, media_elements := [],
        focus_test_results := [], interactive_elements := [], instructions := [],
        assist_fields := [],
        errorSupport := ⟨true, [], [], ⟨false, false, false⟩, []⟩,
        available_languages := [] } = 1 ∧
    calculate_structured_navigation_metric
      { html_available := true, axe_results := ⟨[], []⟩, images := [],
        fallback_text_elements_count := 0, media_elements := [],
        focus_test_results := [], interactive_elements := [], instructions := [],
        assist_fields := [],
        errorSupport := ⟨true, [], [], ⟨false, false, false⟩, []⟩,
        available_languages := [] } = 1 ∧
    calculate_contrast_metric
      { html_available := true, axe_results := ⟨[], []⟩, images := [],
        fallback_text_elements_count := 0, media_elements := [],
        focus_test_results := [], interactive_elements := [], instructions := [],
        assist_fields := [],
        errorSupport := ⟨true, [], [], ⟨false, false, false⟩, []⟩,
        available_languages := [] } = 1 ∧
    calculate_error_support_metric_enhanced
      (⟨true, [], [], ⟨false, false, false⟩, []⟩ : ErrSupportInput) = 1 ∧
    analyze_form_error_support_quality ⟨false, false, false⟩ ([] : ErrForm) = 1 := by
  have h := empty_population_neutral
    { html_available := true, axe_results := ⟨[], []⟩, images := [],
      fallback_text_elements_count := 0, media_elements := [],
      focus_test_results := [], interactive_elements := [], instructions := [],
      assist_fields := [],
      errorSupport := ⟨true, [], [], ⟨false, false, false⟩, []⟩,
      available_languages := [] }
    ⟨false, false, false⟩ ([] : ErrForm)
  exact ⟨h.1 ⟨rfl, Or.inr rfl⟩, h.2.1 rfl, h.2.2.1 rfl,
    h.2.2.2.1 ⟨rfl, rfl, rfl⟩,
    h.2.2.2.2.2.1 (by norm_num [effectiveForms]),
    h.2.2.2.2.2.2 rfl⟩

/-! ## Unit-interval membership lemmas for C1 -/

lemma min_one_mem {x : ℚ} (hx : 0 ≤ x) : unitInterval (min x 1) :=
  ⟨le_min hx (by norm_num), min_le_right x 1⟩

lemma one_mem : unitInterval (1 : ℚ) := ⟨by norm_num, le_refl 1⟩

lemma axeCorrect_le_total (ax : AxeResults) (rules : List String) :
    axeCorrectCount ax rules ≤ axeTotalCount ax rules := by
  unfold axeCorrectCount axeTotalCount
  apply List.sum_le_sum
  intro rid _
  exact Nat.le_add_right _ _

lemma alt_text_mem (p : PageData) : unitInterval (calculate_alt_text_metric p) := by
  simp only [calculate_alt_text_metric, fallback_alt_text_analysis]
  split_ifs <;>
    first
      | exact one_mem
      | exact natRatio_mem (List.countP_le_length _)
      | exact natRatio_mem (axeCorrect_le_total p.axe_results alt_related_rules)

lemma contrast_mem (p : PageData) : unitInterval (calculate_contrast_metric p) := by
  simp only [calculate_contrast_metric, fallback_contrast_analysis]
  split_ifs <;>
    first
      | exact one_mem
      | exact natRatio_mem (axeCorrect_le_total p.axe_results contrast_rules)
      | exact ⟨by norm_num, by norm_num⟩

lemma media_mem (p : PageData) :
    unitInterval (calculate_media_accessibility_metric p) := by
  simp only [calculate_media_accessibility_metric]
  split_ifs <;>
    first
      | exact one_mem
      | exact natRatio_mem (List.countP_le_length _)

lemma keyboard_mem (p : PageData) :
    unitInterval (calculate_keyboard_navigation_metric p) := by
  simp only [calculate_keyboard_navigation_metric, fallback_keyboard_analysis]
  split_ifs <;>
    first
      | exact one_mem
      | exact natRatio_mem (List.countP_le_length _)

lemma structured_mem (p : PageData) :
    unitInterval (calculate_structured_navigation_metric p) := by
  simp only [calculate_structured_navigation_metric]
  split_ifs <;>
    first
      | exact one_mem
      | exact natRatio_mem (axeCorrect_le_total p.axe_results heading_rules)

lemma clarity_mem (ts : TextstatOracle) (p : PageData) :
    unitInterval (calculate_instruction_clarity_metric ts p) := by
  simp only [calculate_instruction_clarity_metric]
  split_ifs <;>
    first
      | exact one_mem
      | exact natRatio_mem (List.countP_le_length _)

lemma assistance_mem (p : PageData) :
    unitInterval (calculate_input_assistance_metric p) := by
  simp only [calculate_input_assistance_metric]
  split_ifs <;>
    first
      | exact one_mem
      | exact natRatio_mem (List.countP_le_length _)

lemma assess_error_message_quality_mem (m : String) :
    unitInterval (assess_error_message_quality m) := by
  simp only [assess_error_message_quality]
  split_ifs <;>
    first
      | exact ⟨le_refl 0, by norm_num⟩
      | exact min_one_mem (by norm_num)

lemma phase1_bounds (pg : ErrPageFacts) (f : ErrField) :
    0 ≤ phase1_basic_error_support pg f ∧ phase1_basic_error_support pg f ≤ 0.4 := by
  unfold phase1_basic_error_support
  split_ifs <;> norm_num

lemma phase2_bounds (f : ErrField) :
    0 ≤ phase2_message_quality f ∧ phase2_message_quality f ≤ 0.3 := by
  simp only [phase2_message_quality]
  split_ifs with h
  · norm_num
  · have havg := list_avg_mem
      (l := f.describedby_messages.map assess_error_message_quality) ?_
    · rw [List.length_map] at havg
      constructor
      · exact mul_nonneg havg.1 (by norm_num)
      · calc ((f.describedby_messages.map assess_error_message_quality).sum /
            f.describedby_messages.length) * 0.3 ≤ 1 * 0.3 := by
              apply mul_le_mul_of_nonneg_right havg.2 (by norm_num)
          _ = 0.3 := by norm_num
    · intro x hx
      obtain ⟨msg, _, rfl⟩ := List.mem_map.1 hx
      exact assess_error_message_quality_mem msg

lemma phase3_bounds (pg : ErrPageFacts) (f : ErrField) :
    0 ≤ phase3_dynamic_validation pg f ∧ phase3_dynamic_validation pg f ≤ 0.3 := by
  unfold phase3_dynamic_validation
  split_ifs <;> norm_num

lemma analyze_field_mem (pg : ErrPageFacts) (f : ErrField) :
    unitInterval (analyze_field_error_support pg f) := by
  unfold analyze_field_error_support
  have h1 := phase1_bounds pg f
  have h2 := phase2_bounds f
  have h3 := phase3_bounds pg f
  exact min_one_mem (by linarith [h1.1, h2.1, h3.1])

lemma analyze_form_mem (pg : ErrPageFacts) (form : ErrForm) :
    unitInterval (analyze_form_error_support_quality pg form) := by
  simp only [analyze_form_error_support_quality]
  split_ifs with h1 h2 <;> try exact one_mem
  · have havg := list_avg_mem
      (l := (form.filter field_needs_validation).map (analyze_field_error_support pg)) ?_
    · rw [List.length_map] at havg
      exact havg
    · intro x hx
      obtain ⟨f, _, rfl⟩ := List.mem_map.1 hx
      exact analyze_field_mem pg f

lemma static_average_mem (inp : ErrSupportInput) :
    unitInterval (static_average inp) := by
  unfold static_average
  have havg := list_avg_mem
    (l := (effectiveForms inp).map (analyze_form_error_support_quality inp.pageFacts)) ?_
  · rw [List.length_map] at havg
    exact havg
  · intro x hx
    obtain ⟨form, _, rfl⟩ := List.mem_map.1 hx
    exact analyze_form_mem inp.pageFacts form

lemma dynamic_average_mem (results : List DynFormResult)
    (hdyn : ∀ r ∈ results, unitInterval r.quality_score) :
    unitInterval (dynamic_average results) := by
  simp only [dynamic_average]
  split_ifs with h
  · have havg := list_avg_mem
      (l := (results.filter (fun r => ¬ r.hasErrorKey)).map
        (fun r => r.quality_score)) ?_
    · rw [List.length_map] at havg
      exact havg
    · intro x hx
      obtain ⟨r, hr, rfl⟩ := List.mem_map.1 hx
      exact hdyn r (List.mem_of_mem_filter hr)
  · exact ⟨le_refl 0, by norm_num⟩

lemma error_support_mem (inp : ErrSupportInput)
    (hdyn : ∀ r ∈ inp.form_error_test_results, unitInterval r.quality_score) :
    unitInterval (calculate_error_support_metric_enhanced inp) := by
  simp only [calculate_error_support_metric_enhanced]
  split_ifs with h1 h2 h3 <;>
    first
      | exact one_mem
      | exact static_average_mem inp
      | (have hs := static_average_mem inp
         have hd := dynamic_average_mem inp.form_error_test_results hdyn
         exact ⟨by nlinarith [hs.1, hd.1], by nlinarith [hs.2, hd.2]⟩)

lemma localization_metric_mem (langs : List String) :
    unitInterval (calculate_localization_metric langs) := by
  apply min_one_mem
  unfold localization_raw_score localization_weights
  split_ifs <;> norm_num

/-- C1: every metric value produced by the metric calculators lies in
`[0,1]` (for `error_support`, given that the dynamic probe results carry
`[0,1]` quality scores, which the Form Probe guarantees); the four subscore
values and the final score are clamped into `[0,1]` for any metrics
dictionary whatsoever. -/
theorem scores_unit_interval (ts : TextstatOracle) (p : PageData)
    (m : Metrics) (s : Subscores)
    (hdyn : ∀ r ∈ p.errorSupport.form_error_test_results,
      unitInterval r.quality_score) :
    unitInterval (calculate_alt_text_metric p) ∧
    unitInterval (calculate_contrast_metric p) ∧
    unitInterval (calculate_media_accessibility_metric p) ∧
    unitInterval (calculate_keyboard_navigation_metric p) ∧
    unitInterval (calculate_structured_navigation_metric p) ∧
    unitInterval (calculate_instruction_clarity_metric ts p) ∧
    unitInterval (calculate_input_assistance_metric p) ∧
    unitInterval (calculate_error_support_metric_enhanced p.errorSupport) ∧
    unitInterval (calculate_localization_metric p.available_languages) ∧
    unitInterval ((calculate_subscores m).perceptibility) ∧
    unitInterval ((calculate_subscores m).operability) ∧
    unitInterval ((calculate_subscores m).understandability) ∧
    unitInterval ((calculate_subscores m).localization) ∧
    unitInterval (calculate_final_score s) :=
  ⟨alt_text_mem p, contrast_mem p, media_mem p, keyboard_mem p,
    structured_mem p, clarity_mem ts p, assistance_mem p,
    error_support_mem p.errorSupport hdyn,
    localization_metric_mem p.available_languages,
    clamp01_mem _, clamp01_mem _, clamp01_mem _, clamp01_mem _, clamp01_mem _⟩

/-- A small page with one image, one video, one probed focus result, one
instruction and one dynamic form result, for the C1 witness. -/
def c1page : PageData :=
  { html_available := true,
    axe_results := ⟨[⟨"image-alt", [⟨"<img>"⟩]⟩], [⟨"heading-order", [⟨"<h3>"⟩]⟩]⟩,
    images := [⟨some "logo"⟩],
    fallback_text_elements_count := 2,
    media_elements := [⟨"video", [⟨"captions"⟩], false⟩],
    focus_test_results := [⟨true⟩, ⟨false⟩],
    interactive_elements := [⟨"button", none, none⟩],
    instructions := [⟨"Введіть імʼя", "text"⟩],
    assist_fields := [⟨false, "email", false, true, false, false, false⟩],
    errorSupport := ⟨true, [[c4field]], [], ⟨false, false, false⟩, [⟨false, 1/2⟩]⟩,
    available_languages := ["uk", "en"] }

/-- Witness for C1 on the concrete page `c1page` and concrete
metrics/subscores dictionaries. -/
theorem scores_unit_interval_witness :
    unitInterval (calculate_alt_text_metric c1page) ∧
    unitInterval (calculate_contrast_metric c1page) ∧
    unitInterval (calculate_media_accessibility_metric c1page) ∧
    unitInterval (calculate_keyboard_navigation_metric c1page) ∧
    unitInterval (calculate_structured_navigation_metric c1page) ∧
    unitInterval (calculate_instruction_clarity_metric ⟨fun _ => none⟩ c1page) ∧
    unitInterval (calculate_input_assistance_metric c1page) ∧
    unitInterval (calculate_error_support_metric_enhanced c1page.errorSupport) ∧
    unitInterval (calculate_localization_metric c1page.available_languages) ∧
    unitInterval ((calculate_subscores ⟨1, 0.5, 1, 1, 1, 1, 1, 0.7, 0.8⟩).perceptibility) ∧
    unitInterval ((calculate_subscores ⟨1, 0.5, 1, 1, 1, 1, 1, 0.7, 0.8⟩).operability) ∧
    unitInterval ((calculate_subscores ⟨1, 0.5, 1, 1, 1, 1, 1, 0.7, 0.8⟩).understandability) ∧
    unitInterval ((calculate_subscores ⟨1, 0.5, 1, 1, 1, 1, 1, 0.7, 0.8⟩).localization) ∧
    unitInterval (calculate_final_score ⟨0.8, 0.6, 0.7, 0.5⟩) :=
  scores_unit_interval ⟨fun _ => none⟩ c1page ⟨1, 0.5, 1, 1, 1, 1, 1, 0.7, 0.8⟩
    ⟨0.8, 0.6, 0.7, 0.5⟩
    (by intro r hr
        simp only [c1page, List.mem_singleton] at hr
        subst hr
        exact ⟨by norm_num, by norm_num⟩)

end AccessEval
